import Mathlib

/-!
Verification of `mesh_renderer/rasterize_triangles.py` (differentiable
triangle rasterizer, batch orchestration layer).

Shallow embedding conventions:
* float32 scalars are modelled as rationals (`ℚ`); the arithmetic the
  orchestrator performs (multiply, add, clamp) is exact on the inputs the
  claims quantify over.
* The compiled extension `rasterize_triangles_cpp.forward` (the per-image
  Pixel Rasterization Kernel) is not part of the Python source; it is
  modelled as an abstract function parameter of type `Kernel`, so every
  theorem holds for an arbitrary kernel satisfying the documented contract.
  Likewise `rasterize_triangles_cpp.backward` is an abstract `GradKernel`.
* `torch` tensors appearing only through indexing/reshape/arithmetic are
  modelled as nested lists of fixed rank; the clip-space vertex buffer is
  modelled as a shape-carrying `Tensor` because `rasterize_clip_space`
  inspects its rank dynamically (`len(shape) != 3`).
* Per-pixel buffers of shape `[image_height, image_width, ...]` are kept in
  row-major flattened form (pixel `(y, x)` at index `y * image_width + x`);
  the Python code itself flattens them (`torch.reshape(..., [-1, 3])`)
  before every operation the claims are about.
* Fallible torch operations the claims depend on are modelled in
  `Except String`: the three explicit `ValueError`s of
  `rasterize_clip_space` and the `torch.stack` failure on an empty tensor
  list.  The remaining index/reshape operations are modelled totally with
  `List.getD` defaults; all theorems about them carry the well-formedness
  hypotheses (documented tensor shapes, index ranges) under which the
  defaults are never consulted.
-/

/-- A scalar vector (one row of a float tensor). -/
abbrev Vec := List ℚ

/-- One entry of the triangle list: three vertex indices. -/
abbrev Tri := Nat × Nat × Nat

/-- A float tensor carrying its dynamic shape, row-major flat data.
Used for the clip-space vertex buffer, whose rank the Python code checks
at run time. -/
structure Tensor where
  shape : List Nat
  data : List ℚ

/-- The triple returned by `rasterize_triangles_cpp.forward` for one image,
with the per-pixel buffers flattened row-major (docstring of
`BarycentricRasterizer.forward`, lines 33-45):
`px_triangle_ids : [image_height * image_width]`,
`px_barycentric_coordinates : [image_height * image_width, 3]`,
`z_buffer : [image_height * image_width]`. -/
structure RasterOutput where
  triangleIds : List Nat
  barycentric : List (ℚ × ℚ × ℚ)
  zbuffer : List ℚ

/-- Abstract model of the compiled forward kernel
`rasterize_triangles_cpp.forward(clip_space_vertices, triangles,
image_width, image_height)`. -/
abbrev Kernel := List Vec → List Tri → Int → Int → RasterOutput

/-- Abstract model of the compiled gradient kernel
`rasterize_triangles_cpp.backward(df_dbarycentric_coords,
clip_space_vertices, triangles, px_triangle_ids, px_barycentric_coords)`,
returning `df_dvertices`. -/
abbrev GradKernel :=
  List (ℚ × ℚ × ℚ) → List Vec → List Tri → List Nat → List (ℚ × ℚ × ℚ) → List Vec

/-- The tensors saved by `ctx.save_for_backward` in
`BarycentricRasterizer.forward` (lines 49-50). -/
structure BackwardCtx where
  clip_space_vertices : List Vec
  triangles : List Tri
  px_triangle_ids : List Nat
  px_barycentric_coords : List (ℚ × ℚ × ℚ)

namespace BarycentricRasterizer

/-- Model of `BarycentricRasterizer.forward` (lines 16-51): call the compiled kernel
and record the saved-tensor context. -/
def forward (cpp_forward : Kernel) (clip_space_vertices : List Vec)
    (triangles : List Tri) (image_width image_height : Int) :
    RasterOutput × BackwardCtx :=
  let o := cpp_forward clip_space_vertices triangles image_width image_height
  (o, ⟨clip_space_vertices, triangles, o.triangleIds, o.barycentric⟩)

/-- Model of `BarycentricRasterizer.backward` (lines 53-71): returns
`df_dvertices, torch.zeros_like(triangles), 0, 0`.  `torch.zeros_like` on
the `[triangle_count, 3]` int tensor is a same-shape list of zero
triples. -/
def backward (cpp_backward : GradKernel) (ctx : BackwardCtx)
    (df_dbarycentric_coords : List (ℚ × ℚ × ℚ)) :
    List Vec × List Tri × Int × Int :=
  (cpp_backward df_dbarycentric_coords ctx.clip_space_vertices ctx.triangles
      ctx.px_triangle_ids ctx.px_barycentric_coords,
   ctx.triangles.map fun _ => ((0 : Nat), (0 : Nat), (0 : Nat)),
   0, 0)

end BarycentricRasterizer

/-- Slice `clip_space_vertices[b, :, :]` (line 159): the `b`-th image's vertex
matrix, rows of length `shape[2]` starting at offset `b * shape[1]`
rows. -/
def Tensor.image (t : Tensor) (b : Nat) : List Vec :=
  let vertex_count := t.shape.getD 1 0
  let coord_count := t.shape.getD 2 0
  (List.range vertex_count).map fun v =>
    (t.data.drop ((b * vertex_count + v) * coord_count)).take coord_count

/-- The per-image loop body of `rasterize_clip_space` (lines 157-166): for
each batch index `b`, run the kernel, flatten the barycentric buffer to
`[pixel_count, 3]`, look the per-pixel triangle ids up in the triangle list
(`torch.index_select(triangles, 0, px_triangle_ids)`) and offset the
resulting vertex ids by `b * vertex_count`. -/
def per_image_data (kernel : Kernel) (clip_space_vertices : Tensor)
    (triangles : List Tri) (image_width image_height : Int) :
    List (List (ℚ × ℚ × ℚ) × List Tri) :=
  let vertex_count := clip_space_vertices.shape.getD 1 0
  let batch_size := clip_space_vertices.shape.getD 0 0
  (List.range batch_size).map fun b =>
    let o := kernel (clip_space_vertices.image b) triangles image_width image_height
    let vertex_ids := o.triangleIds.map fun tid => triangles.getD tid (0, 0, 0)
    let reindexed_ids := vertex_ids.map fun t =>
      (t.1 + b * vertex_count, t.2.1 + b * vertex_count, t.2.2 + b * vertex_count)
    (o.barycentric, reindexed_ids)

/-- Model of `torch.stack` on a Python list of equally-shaped tensors (lines
168-171): fails on an empty list, otherwise keeps the list.  (The code
stacks the barycentric list and the vertex-id list, both of length
`batch_size`, then immediately re-flattens; stacking the paired list once
is observably the same.) -/
def torchStack {α : Type} (l : List α) : Except String (List α) :=
  if l.isEmpty then .error "stack expects a non-empty TensorList" else .ok l

/-- Model of `torch.reshape(stack(per_image_barycentric_coordinates), [-1, 3])`
(lines 168-169): the flattened barycentric buffer across the batch. -/
def all_barycentric (per_image : List (List (ℚ × ℚ × ℚ) × List Tri)) :
    List (ℚ × ℚ × ℚ) :=
  (per_image.map Prod.fst).flatten

/-- Model of `torch.reshape(stack(per_image_vertex_ids), [-1, 3])` (lines 170-171):
the flattened reindexed vertex-id buffer across the batch. -/
def all_vertex_ids (per_image : List (List (ℚ × ℚ × ℚ) × List Tri)) :
    List Tri :=
  (per_image.map Prod.snd).flatten

/-- Row `i` of reshaping `data` to `[rows, k]`. -/
def chunkRows (k rows : Nat) (data : List ℚ) : List Vec :=
  (List.range rows).map fun i => (data.drop (i * k)).take k

/-- Model of `torch.reshape(attributes, [batch_size * vertex_count, -1])` (lines
175-176): flatten the attribute tensor to one row per (batch, vertex)
pair; the inferred row width is `numel / rows`. -/
def flattened_vertex_attributes (attributes : List (List Vec)) (rows : Nat) :
    List Vec :=
  chunkRows (attributes.flatten.flatten.length / rows) rows
    attributes.flatten.flatten

/-- Gather `flattened_vertex_attributes[vertex_ids]` (line 177): gather the three
corner attribute rows for each pixel. -/
def corner_attributes (flat : List Vec) (ids : List Tri) :
    List (Vec × Vec × Vec) :=
  ids.map fun t => (flat.getD t.1 [], flat.getD t.2.1 [], flat.getD t.2.2 [])

/-- Scalar-vector product (broadcast `torch.mul`). -/
def vecScale (c : ℚ) (v : Vec) : Vec := v.map fun x => c * x

/-- Elementwise vector sum. -/
def vecAdd (u v : Vec) : Vec := List.zipWith (· + ·) u v

/-- Model of `torch.sum(torch.mul(corner_attributes, unsqueeze(barycentric, 2)),
dim=1)` (lines 182-184): each pixel's weighted sum of its three corner
attribute rows. -/
def summed_attributes (corners : List (Vec × Vec × Vec))
    (bary : List (ℚ × ℚ × ℚ)) : List Vec :=
  List.zipWith
    (fun c w => vecAdd (vecAdd (vecScale w.1 c.1) (vecScale w.2.1 c.2.1))
      (vecScale w.2.2 c.2.2))
    corners bary

/-- Model of `torch.clamp(x, lo, hi)`. -/
def torchClamp (x lo hi : ℚ) : ℚ := min (max x lo) hi

/-- One pixel's `torch.clamp(torch.sum(2.0 * barycentric, dim=1), 0.0, 1.0)`
(lines 190-191). -/
def pixel_alpha (w : ℚ × ℚ × ℚ) : ℚ :=
  torchClamp (2 * w.1 + 2 * w.2.1 + 2 * w.2.2) 0 1

/-- The flattened alpha buffer (lines 190-192). -/
def alphas (bary : List (ℚ × ℚ × ℚ)) : List ℚ := bary.map pixel_alpha

/-- One pixel of `alphas * attribute_images + (1.0 - alphas) *
background_value` (lines 194-195). -/
def blend (a : ℚ) (img : Vec) (background_value : Vec) : Vec :=
  vecAdd (vecScale a img) (vecScale (1 - a) background_value)

/-- The flattened interpolated attribute image `summed_attributes`
(lines 173-184), as a function of the per-image loop results and the
attribute buffer. -/
def interpolated_attributes (per_image : List (List (ℚ × ℚ × ℚ) × List Tri))
    (attributes : List (List Vec)) (rows : Nat) : List Vec :=
  summed_attributes
    (corner_attributes (flattened_vertex_attributes attributes rows)
      (all_vertex_ids per_image))
    (all_barycentric per_image)

/-- The flattened blended output `attributes_with_background`
(lines 188-195). -/
def blended_attributes (per_image : List (List (ℚ × ℚ × ℚ) × List Tri))
    (attributes : List (List Vec)) (rows : Nat) (background_value : Vec) :
    List Vec :=
  List.zipWith (fun a img => blend a img background_value)
    (alphas (all_barycentric per_image))
    (interpolated_attributes per_image attributes rows)

/-- Model of `rasterize_clip_space(clip_space_vertices, attributes, triangles,
image_width, image_height, background_value)` (lines 112-197),
parameterized by the abstract forward kernel.  The result is the
`[batch_size, image_height, image_width, attribute_count]` output with the
two pixel dimensions kept flattened (`pixel_count` rows per image). -/
def rasterize_clip_space (kernel : Kernel) (clip_space_vertices : Tensor)
    (attributes : List (List Vec)) (triangles : List Tri)
    (image_width image_height : Int) (background_value : Vec) :
    Except String (List (List Vec)) :=
  if ¬ image_width > 0 then .error "Image width must be > 0."
  else if ¬ image_height > 0 then .error "Image height must be > 0."
  else if clip_space_vertices.shape.length ≠ 3 then
    .error "The vertex buffer must be 3D."
  else
    match torchStack
      (per_image_data kernel clip_space_vertices triangles image_width image_height) with
    | .error e => .error e
    | .ok stacked =>
      .ok ((List.range (clip_space_vertices.shape.getD 0 0)).map fun b =>
        (List.range (image_height.toNat * image_width.toNat)).map fun p =>
          (blended_attributes stacked attributes
            (clip_space_vertices.shape.getD 0 0 * clip_space_vertices.shape.getD 1 0)
            background_value).getD (b * (image_height.toNat * image_width.toNat) + p) [])

/-- Modelled from the spec: `camera_utils.transform_homogeneous` is not
part of this repository's source snippet; the spec (§6, Camera projector)
describes it as `(camera matrices [B,4,4] float, world-space vertices
[B,V,3] float) → clip-space vertices [B,V,4] float, via homogeneous
matrix-vector multiply`. -/
def transform_homogeneous (camera_matrices : List (List Vec))
    (world_space_vertices : Tensor) : Tensor :=
  let batch_size := world_space_vertices.shape.getD 0 0
  let vertex_count := world_space_vertices.shape.getD 1 0
  { shape := [batch_size, vertex_count, 4]
    data :=
      ((List.range batch_size).map fun b =>
        ((List.range vertex_count).map fun v =>
          let p := (world_space_vertices.data.drop ((b * vertex_count + v) * 3)).take 3
          let homog := p ++ [(1 : ℚ)]
          (List.range 4).map fun i =>
            (List.zipWith (· * ·) ((camera_matrices.getD b []).getD i []) homog).sum
        ).flatten
      ).flatten }

/-- Model of `rasterize(world_space_vertices, attributes, triangles,
camera_matrices, image_width, image_height, background_value)`
(lines 74-109), parameterized by the abstract forward kernel. -/
def rasterize (kernel : Kernel) (world_space_vertices : Tensor)
    (attributes : List (List Vec)) (triangles : List Tri)
    (camera_matrices : List (List Vec)) (image_width image_height : Int)
    (background_value : Vec) : Except String (List (List Vec)) :=
  rasterize_clip_space kernel
    (transform_homogeneous camera_matrices world_space_vertices)
    attributes triangles image_width image_height background_value

/-- The well-formedness assumptions under which the pixel-level claims are
stated: positive image dimensions, a rank-3 vertex buffer with positive
batch and vertex counts, an attribute buffer of the documented shape
`[batch_size, vertex_count, A]`, a background row of width `A`, triangle
vertex indices inside the vertex buffer, and a kernel respecting the
documented contract of `BarycentricRasterizer.forward` (per-pixel buffers
of `image_height * image_width` entries, triangle ids inside the triangle
list). -/
structure ValidInput (A : Nat) (kernel : Kernel) (csv : Tensor)
    (attributes : List (List Vec)) (triangles : List Tri)
    (image_width image_height : Int) (background_value : Vec) : Prop where
  width_pos : 0 < image_width
  height_pos : 0 < image_height
  rank3 : csv.shape.length = 3
  batch_pos : 0 < csv.shape.getD 0 0
  vertex_pos : 0 < csv.shape.getD 1 0
  attr_batch : attributes.length = csv.shape.getD 0 0
  attr_vertex : ∀ r ∈ attributes, r.length = csv.shape.getD 1 0
  attr_width : ∀ r ∈ attributes, ∀ v ∈ r, v.length = A
  bg_width : background_value.length = A
  kernel_ids_len : ∀ b < csv.shape.getD 0 0,
    (kernel (csv.image b) triangles image_width image_height).triangleIds.length =
      image_height.toNat * image_width.toNat
  kernel_bary_len : ∀ b < csv.shape.getD 0 0,
    (kernel (csv.image b) triangles image_width image_height).barycentric.length =
      image_height.toNat * image_width.toNat
  kernel_ids_lt : ∀ b < csv.shape.getD 0 0,
    ∀ i ∈ (kernel (csv.image b) triangles image_width image_height).triangleIds,
      i < triangles.length
  tri_lt : ∀ t ∈ triangles, t.1 < csv.shape.getD 1 0 ∧
    t.2.1 < csv.shape.getD 1 0 ∧ t.2.2 < csv.shape.getD 1 0

/-! ### Generic list lemmas -/

theorem getD_range_map {α : Type} (f : Nat → α) {n i : Nat} (h : i < n) (d : α) :
    ((List.range n).map f).getD i d = f i := by
  have hl : i < ((List.range n).map f).length := by simpa using h
  rw [List.getD_eq_getElem _ _ hl, List.getElem_map, List.getElem_range]

theorem length_flatten_uniform {α : Type} {L : List (List α)} {c : Nat}
    (h : ∀ x ∈ L, x.length = c) : L.flatten.length = L.length * c := by
  induction L with
  | nil => simp
  | cons x xs ih =>
    simp only [List.flatten_cons, List.length_append, List.length_cons]
    rw [h x (by simp), ih fun y hy => h y (by simp [hy])]
    ring

theorem getD_flatten_uniform {α : Type} {L : List (List α)} {c : Nat}
    (h : ∀ x ∈ L, x.length = c) {b p : Nat} (hb : b < L.length) (hp : p < c)
    (d : α) : L.flatten.getD (b * c + p) d = (L.getD b []).getD p d := by
  induction L generalizing b with
  | nil => simp at hb
  | cons x xs ih =>
    have hx : x.length = c := h x (by simp)
    cases b with
    | zero =>
      simp only [List.flatten_cons, Nat.zero_mul, Nat.zero_add]
      rw [List.getD_append _ _ _ p (by rw [hx]; exact hp)]
      rfl
    | succ b' =>
      have hexp : (b' + 1) * c + p = x.length + (b' * c + p) := by rw [hx]; ring
      simp only [List.flatten_cons, hexp]
      rw [List.getD_append_right _ _ _ _ (Nat.le_add_right _ _),
        Nat.add_sub_cancel_left]
      rw [ih (fun y hy => h y (by simp [hy])) (by simpa using hb)]
      rfl

theorem flatten_drop_take {A : Nat} (L : List Vec) (h : ∀ v ∈ L, v.length = A)
    {r : Nat} (hr : r < L.length) :
    (L.flatten.drop (r * A)).take A = L.getD r [] := by
  induction L generalizing r with
  | nil => simp at hr
  | cons v vs ih =>
    have hv : v.length = A := h v (by simp)
    cases r with
    | zero =>
      simp only [List.flatten_cons, Nat.zero_mul, List.drop_zero]
      rw [← hv, List.take_left]
      rfl
    | succ r' =>
      have hexp : (r' + 1) * A = v.length + r' * A := by rw [hv]; ring
      simp only [List.flatten_cons, hexp, List.drop_append]
      rw [ih (fun y hy => h y (by simp [hy])) (by simpa using hr)]
      rfl

theorem getD_map_lt {α β : Type} (f : α → β) {l : List α} {i : Nat}
    (h : i < l.length) (d : β) (d' : α) :
    (l.map f).getD i d = f (l.getD i d') := by
  rw [List.getD_eq_getElem _ _ (by simpa using h), List.getElem_map,
    List.getD_eq_getElem _ _ h]

theorem getD_zipWith_lt {α β γ : Type} (f : α → β → γ) {l : List α}
    {m : List β} {i : Nat} (h1 : i < l.length) (h2 : i < m.length) (d : γ)
    (da : α) (db : β) :
    (List.zipWith f l m).getD i d = f (l.getD i da) (m.getD i db) := by
  have hl : i < (List.zipWith f l m).length := by
    rw [List.length_zipWith]; exact lt_min h1 h2
  rw [List.getD_eq_getElem _ _ hl, List.getElem_zipWith,
    List.getD_eq_getElem _ _ h1, List.getD_eq_getElem _ _ h2]

theorem getD_mem {α : Type} {l : List α} {i : Nat} (h : i < l.length) (d : α) :
    l.getD i d ∈ l := by
  rw [List.getD_eq_getElem _ _ h]; exact List.getElem_mem h

theorem mul_index_lt {b p B P : Nat} (hb : b < B) (hp : p < P) :
    b * P + p < B * P := by
  calc b * P + p < b * P + P := by omega
    _ = (b + 1) * P := by ring
    _ ≤ B * P := Nat.mul_le_mul_right P (Nat.succ_le_of_lt hb)

theorem blend_zero {u v : Vec} (h : u.length = v.length) : blend 0 u v = v := by
  unfold blend vecAdd vecScale
  induction u generalizing v with
  | nil =>
    cases v with
    | nil => simp
    | cons y v' => simp at h
  | cons x u' ih =>
    cases v with
    | nil => simp at h
    | cons y v' =>
      simp only [List.map_cons, List.zipWith_cons_cons, List.cons.injEq]
      exact ⟨by ring, ih (by simpa using h)⟩

theorem vecScale_length (c : ℚ) (v : Vec) : (vecScale c v).length = v.length := by
  simp [vecScale]

theorem vecAdd_length (u v : Vec) :
    (vecAdd u v).length = min u.length v.length := by
  simp [vecAdd]

/-! ### Stage lemmas for `rasterize_clip_space` under `ValidInput` -/

section StageLemmas

variable {A : Nat} {kernel : Kernel} {csv : Tensor}
  {attributes : List (List Vec)} {triangles : List Tri}
  {image_width image_height : Int} {background_value : Vec}

theorem per_image_data_length :
    (per_image_data kernel csv triangles image_width image_height).length =
      csv.shape.getD 0 0 := by
  simp [per_image_data]

theorem per_image_data_getD {b : Nat} (hb : b < csv.shape.getD 0 0) :
    (per_image_data kernel csv triangles image_width image_height).getD b ([], []) =
      ((kernel (csv.image b) triangles image_width image_height).barycentric,
       ((kernel (csv.image b) triangles image_width image_height).triangleIds.map
          fun tid => triangles.getD tid (0, 0, 0)).map fun t =>
            (t.1 + b * csv.shape.getD 1 0, t.2.1 + b * csv.shape.getD 1 0,
             t.2.2 + b * csv.shape.getD 1 0)) := by
  unfold per_image_data
  exact getD_range_map _ hb _

theorem per_image_bary_uniform
    (hv : ValidInput A kernel csv attributes triangles image_width image_height
      background_value) :
    ∀ x ∈ (per_image_data kernel csv triangles image_width image_height).map
      Prod.fst, x.length = image_height.toNat * image_width.toNat := by
  intro x hx
  simp only [per_image_data, List.map_map, List.mem_map, List.mem_range] at hx
  obtain ⟨b, hb, rfl⟩ := hx
  exact hv.kernel_bary_len b hb

theorem per_image_ids_uniform
    (hv : ValidInput A kernel csv attributes triangles image_width image_height
      background_value) :
    ∀ x ∈ (per_image_data kernel csv triangles image_width image_height).map
      Prod.snd, x.length = image_height.toNat * image_width.toNat := by
  intro x hx
  simp only [per_image_data, List.map_map, List.mem_map, List.mem_range] at hx
  obtain ⟨b, hb, rfl⟩ := hx
  simp only [Function.comp_apply, List.length_map]
  exact hv.kernel_ids_len b hb

theorem all_barycentric_length
    (hv : ValidInput A kernel csv attributes triangles image_width image_height
      background_value) :
    (all_barycentric
      (per_image_data kernel csv triangles image_width image_height)).length =
      csv.shape.getD 0 0 * (image_height.toNat * image_width.toNat) := by
  unfold all_barycentric
  rw [length_flatten_uniform (per_image_bary_uniform hv), List.length_map,
    per_image_data_length]

theorem all_vertex_ids_length
    (hv : ValidInput A kernel csv attributes triangles image_width image_height
      background_value) :
    (all_vertex_ids
      (per_image_data kernel csv triangles image_width image_height)).length =
      csv.shape.getD 0 0 * (image_height.toNat * image_width.toNat) := by
  unfold all_vertex_ids
  rw [length_flatten_uniform (per_image_ids_uniform hv), List.length_map,
    per_image_data_length]

theorem all_barycentric_getD
    (hv : ValidInput A kernel csv attributes triangles image_width image_height
      background_value)
    {b p : Nat} (hb : b < csv.shape.getD 0 0)
    (hp : p < image_height.toNat * image_width.toNat) :
    (all_barycentric
      (per_image_data kernel csv triangles image_width image_height)).getD
        (b * (image_height.toNat * image_width.toNat) + p) (0, 0, 0) =
      (kernel (csv.image b) triangles image_width image_height).barycentric.getD
        p (0, 0, 0) := by
  unfold all_barycentric
  rw [getD_flatten_uniform (per_image_bary_uniform hv)
    (by rw [List.length_map, per_image_data_length]; exact hb) hp]
  rw [getD_map_lt Prod.fst (by rw [per_image_data_length]; exact hb) _ ([], [])]
  rw [per_image_data_getD hb]

theorem all_vertex_ids_getD
    (hv : ValidInput A kernel csv attributes triangles image_width image_height
      background_value)
    {b p : Nat} (hb : b < csv.shape.getD 0 0)
    (hp : p < image_height.toNat * image_width.toNat) :
    (all_vertex_ids
      (per_image_data kernel csv triangles image_width image_height)).getD
        (b * (image_height.toNat * image_width.toNat) + p) (0, 0, 0) =
      ((triangles.getD
          ((kernel (csv.image b) triangles image_width image_height).triangleIds.getD
            p 0) (0, 0, 0)).1 + b * csv.shape.getD 1 0,
       (triangles.getD
          ((kernel (csv.image b) triangles image_width image_height).triangleIds.getD
            p 0) (0, 0, 0)).2.1 + b * csv.shape.getD 1 0,
       (triangles.getD
          ((kernel (csv.image b) triangles image_width image_height).triangleIds.getD
            p 0) (0, 0, 0)).2.2 + b * csv.shape.getD 1 0) := by
  unfold all_vertex_ids
  rw [getD_flatten_uniform (per_image_ids_uniform hv)
    (by rw [List.length_map, per_image_data_length]; exact hb) hp]
  rw [getD_map_lt Prod.snd (by rw [per_image_data_length]; exact hb) _ ([], [])]
  rw [per_image_data_getD hb]
  show ((((kernel (csv.image b) triangles image_width image_height).triangleIds.map
      fun tid => triangles.getD tid (0, 0, 0)).map fun t =>
        (t.1 + b * csv.shape.getD 1 0, t.2.1 + b * csv.shape.getD 1 0,
         t.2.2 + b * csv.shape.getD 1 0)).getD p (0, 0, 0)) = _
  rw [List.map_map]
  rw [getD_map_lt _ (by rw [hv.kernel_ids_len b hb]; exact hp) _ 0]
  rfl

theorem flattened_row
    (hv : ValidInput A kernel csv attributes triangles image_width image_height
      background_value)
    {b j : Nat} (hb : b < csv.shape.getD 0 0) (hj : j < csv.shape.getD 1 0) :
    (flattened_vertex_attributes attributes
      (csv.shape.getD 0 0 * csv.shape.getD 1 0)).getD
        (j + b * csv.shape.getD 1 0) [] =
      (attributes.getD b []).getD j [] := by
  have hBV : 0 < csv.shape.getD 0 0 * csv.shape.getD 1 0 :=
    Nat.mul_pos hv.batch_pos hv.vertex_pos
  have huA : ∀ v ∈ attributes.flatten, v.length = A := by
    intro v hvm
    rw [List.mem_flatten] at hvm
    obtain ⟨r, hr, hvr⟩ := hvm
    exact hv.attr_width r hr v hvr
  have hflen : attributes.flatten.length =
      csv.shape.getD 0 0 * csv.shape.getD 1 0 := by
    rw [length_flatten_uniform fun r hr => hv.attr_vertex r hr, hv.attr_batch]
  have hdlen : attributes.flatten.flatten.length =
      csv.shape.getD 0 0 * csv.shape.getD 1 0 * A := by
    rw [length_flatten_uniform huA, hflen]
  have hk : attributes.flatten.flatten.length /
      (csv.shape.getD 0 0 * csv.shape.getD 1 0) = A := by
    rw [hdlen, Nat.mul_div_cancel_left A hBV]
  have hidx : j + b * csv.shape.getD 1 0 <
      csv.shape.getD 0 0 * csv.shape.getD 1 0 := by
    rw [Nat.add_comm]
    exact mul_index_lt hb hj
  unfold flattened_vertex_attributes chunkRows
  rw [getD_range_map _ hidx _, hk]
  rw [flatten_drop_take attributes.flatten huA (by rw [hflen]; exact hidx)]
  rw [Nat.add_comm j (b * csv.shape.getD 1 0)]
  rw [getD_flatten_uniform (fun r hr => hv.attr_vertex r hr)
    (by rw [hv.attr_batch]; exact hb) hj]

end StageLemmas

section PixelLemmas

variable {A : Nat} {kernel : Kernel} {csv : Tensor}
  {attributes : List (List Vec)} {triangles : List Tri}
  {image_width image_height : Int} {background_value : Vec}

theorem triangle_of_pixel_mem
    (hv : ValidInput A kernel csv attributes triangles image_width image_height
      background_value)
    {b p : Nat} (hb : b < csv.shape.getD 0 0)
    (hp : p < image_height.toNat * image_width.toNat) :
    triangles.getD
      ((kernel (csv.image b) triangles image_width image_height).triangleIds.getD
        p 0) (0, 0, 0) ∈ triangles := by
  have hpid : p <
      (kernel (csv.image b) triangles image_width image_height).triangleIds.length := by
    rw [hv.kernel_ids_len b hb]; exact hp
  have htid :
      (kernel (csv.image b) triangles image_width image_height).triangleIds.getD
        p 0 < triangles.length :=
    hv.kernel_ids_lt b hb _ (getD_mem hpid 0)
  exact getD_mem htid _

theorem interpolated_attributes_getD
    (hv : ValidInput A kernel csv attributes triangles image_width image_height
      background_value)
    {b p : Nat} (hb : b < csv.shape.getD 0 0)
    (hp : p < image_height.toNat * image_width.toNat) :
    (interpolated_attributes
      (per_image_data kernel csv triangles image_width image_height) attributes
      (csv.shape.getD 0 0 * csv.shape.getD 1 0)).getD
        (b * (image_height.toNat * image_width.toNat) + p) [] =
      vecAdd (vecAdd
        (vecScale
          ((kernel (csv.image b) triangles image_width image_height).barycentric.getD
            p (0, 0, 0)).1
          ((attributes.getD b []).getD
            (triangles.getD
              ((kernel (csv.image b) triangles image_width
                image_height).triangleIds.getD p 0) (0, 0, 0)).1 []))
        (vecScale
          ((kernel (csv.image b) triangles image_width image_height).barycentric.getD
            p (0, 0, 0)).2.1
          ((attributes.getD b []).getD
            (triangles.getD
              ((kernel (csv.image b) triangles image_width
                image_height).triangleIds.getD p 0) (0, 0, 0)).2.1 [])))
        (vecScale
          ((kernel (csv.image b) triangles image_width image_height).barycentric.getD
            p (0, 0, 0)).2.2
          ((attributes.getD b []).getD
            (triangles.getD
              ((kernel (csv.image b) triangles image_width
                image_height).triangleIds.getD p 0) (0, 0, 0)).2.2 [])) := by
  have hidx : b * (image_height.toNat * image_width.toNat) + p <
      csv.shape.getD 0 0 * (image_height.toNat * image_width.toNat) :=
    mul_index_lt hb hp
  obtain ⟨h1, h2, h3⟩ := hv.tri_lt _ (triangle_of_pixel_mem hv hb hp)
  unfold interpolated_attributes summed_attributes corner_attributes
  rw [getD_zipWith_lt _
    (by rw [List.length_map, all_vertex_ids_length hv]; exact hidx)
    (by rw [all_barycentric_length hv]; exact hidx) [] ([], [], []) (0, 0, 0)]
  rw [getD_map_lt _ (by rw [all_vertex_ids_length hv]; exact hidx) _ (0, 0, 0)]
  rw [all_vertex_ids_getD hv hb hp, all_barycentric_getD hv hb hp]
  rw [flattened_row hv hb h1, flattened_row hv hb h2, flattened_row hv hb h3]

theorem blended_attributes_getD
    (hv : ValidInput A kernel csv attributes triangles image_width image_height
      background_value)
    {b p : Nat} (hb : b < csv.shape.getD 0 0)
    (hp : p < image_height.toNat * image_width.toNat) :
    (blended_attributes
      (per_image_data kernel csv triangles image_width image_height) attributes
      (csv.shape.getD 0 0 * csv.shape.getD 1 0) background_value).getD
        (b * (image_height.toNat * image_width.toNat) + p) [] =
      blend
        (pixel_alpha
          ((kernel (csv.image b) triangles image_width image_height).barycentric.getD
            p (0, 0, 0)))
        ((interpolated_attributes
          (per_image_data kernel csv triangles image_width image_height) attributes
          (csv.shape.getD 0 0 * csv.shape.getD 1 0)).getD
            (b * (image_height.toNat * image_width.toNat) + p) [])
        background_value := by
  have hidx : b * (image_height.toNat * image_width.toNat) + p <
      csv.shape.getD 0 0 * (image_height.toNat * image_width.toNat) :=
    mul_index_lt hb hp
  unfold blended_attributes alphas
  rw [getD_zipWith_lt _
    (by rw [List.length_map, all_barycentric_length hv]; exact hidx)
    (by
      unfold interpolated_attributes summed_attributes corner_attributes
      rw [List.length_zipWith, List.length_map, all_vertex_ids_length hv,
        all_barycentric_length hv, Nat.min_self]
      exact hidx)
    [] 0 []]
  rw [getD_map_lt _ (by rw [all_barycentric_length hv]; exact hidx) _ (0, 0, 0)]
  rw [all_barycentric_getD hv hb hp]

theorem rasterize_clip_space_ok
    (hw : 0 < image_width) (hh : 0 < image_height)
    (hrank : csv.shape.length = 3) (hB : 0 < csv.shape.getD 0 0) :
    rasterize_clip_space kernel csv attributes triangles image_width
      image_height background_value =
      .ok ((List.range (csv.shape.getD 0 0)).map fun b =>
        (List.range (image_height.toNat * image_width.toNat)).map fun p =>
          (blended_attributes
            (per_image_data kernel csv triangles image_width image_height)
            attributes (csv.shape.getD 0 0 * csv.shape.getD 1 0)
            background_value).getD
              (b * (image_height.toNat * image_width.toNat) + p) []) := by
  have hne : (per_image_data kernel csv triangles image_width
      image_height).isEmpty = false := by
    rw [List.isEmpty_eq_false]
    intro hcon
    have hlen : (per_image_data kernel csv triangles image_width
        image_height).length = csv.shape.getD 0 0 := per_image_data_length
    rw [hcon] at hlen
    simp only [List.length_nil] at hlen
    omega
  have hstack : torchStack
      (per_image_data kernel csv triangles image_width image_height) =
      .ok (per_image_data kernel csv triangles image_width image_height) := by
    unfold torchStack
    rw [if_neg (by rw [hne]; exact Bool.false_ne_true)]
  unfold rasterize_clip_space
  rw [if_neg (not_not_intro hw), if_neg (not_not_intro hh),
    if_neg (not_not_intro hrank), hstack]

end PixelLemmas

/-! ### Concrete example inputs used by witnesses and counterexamples -/

/-- A kernel reporting a single covered pixel with weights 1/2, 1/4, 1/4. -/
def kernelW : Kernel := fun _ _ _ _ => ⟨[0], [(1/2, 1/4, 1/4)], [0]⟩

/-- A kernel reporting a single uncovered pixel (all-zero weights). -/
def kernelW0 : Kernel := fun _ _ _ _ => ⟨[0], [(0, 0, 0)], [0]⟩

/-- A one-image vertex buffer of shape `[1, 3, 4]`. -/
def csvW : Tensor := ⟨[1, 3, 4], List.replicate 12 0⟩

/-- Attributes of shape `[1, 3, 1]`. -/
def attributesW : List (List Vec) := [[[10], [20], [30]]]

/-- A single triangle. -/
def trianglesW : List Tri := [(0, 1, 2)]

theorem hvW : ValidInput 1 kernelW csvW attributesW trianglesW 1 1 [0] := by
  constructor <;> decide

theorem hvW0 : ValidInput 1 kernelW0 csvW attributesW trianglesW 1 1 [0] := by
  constructor <;> decide

/-! ### Claim theorems -/

/-- C7: `rasterize` returns exactly `rasterize_clip_space` applied to the
homogeneous camera transform of the world-space vertices, with the
remaining arguments unchanged. -/
theorem claim_C7 (kernel : Kernel) (world_space_vertices : Tensor)
    (attributes : List (List Vec)) (triangles : List Tri)
    (camera_matrices : List (List Vec)) (image_width image_height : Int)
    (background_value : Vec) :
    rasterize kernel world_space_vertices attributes triangles camera_matrices
      image_width image_height background_value =
      rasterize_clip_space kernel
        (transform_homogeneous camera_matrices world_space_vertices)
        attributes triangles image_width image_height background_value := rfl

/-- C6: on every backward invocation, `BarycentricRasterizer.backward`
returns, besides the vertex gradient, a zero-valued (not absent)
placeholder for the triangle-list gradient with the same shape as the
triangle list, and zero-valued placeholders for both image dimensions. -/
theorem claim_C6 (cpp_backward : GradKernel) (ctx : BackwardCtx)
    (df_dbarycentric_coords : List (ℚ × ℚ × ℚ)) :
    (BarycentricRasterizer.backward cpp_backward ctx df_dbarycentric_coords).1 =
      cpp_backward df_dbarycentric_coords ctx.clip_space_vertices ctx.triangles
        ctx.px_triangle_ids ctx.px_barycentric_coords ∧
    (BarycentricRasterizer.backward cpp_backward ctx
      df_dbarycentric_coords).2.1.length = ctx.triangles.length ∧
    (∀ t ∈ (BarycentricRasterizer.backward cpp_backward ctx
      df_dbarycentric_coords).2.1, t = (0, 0, 0)) ∧
    (BarycentricRasterizer.backward cpp_backward ctx
      df_dbarycentric_coords).2.2.1 = 0 ∧
    (BarycentricRasterizer.backward cpp_backward ctx
      df_dbarycentric_coords).2.2.2 = 0 := by
  refine ⟨rfl, ?_, ?_, rfl, rfl⟩
  · simp [BarycentricRasterizer.backward]
  · intro t ht
    simp only [BarycentricRasterizer.backward, List.mem_map] at ht
    obtain ⟨a, _, rfl⟩ := ht
    rfl

/-- C4: `rasterize_clip_space` rejects every call with non-positive image
width or height or a non-rank-3 vertex buffer, returning a `ValueError`
result that is independent of the rasterization kernel (so no kernel is
invoked and no output is produced); the same validation governs the
top-level `rasterize` entry point. -/
theorem claim_C4 (csv world_space_vertices : Tensor)
    (attributes : List (List Vec)) (triangles : List Tri)
    (camera_matrices : List (List Vec)) (image_width image_height : Int)
    (background_value : Vec) :
    ((image_width ≤ 0 ∨ image_height ≤ 0 ∨ csv.shape.length ≠ 3) →
      ∃ e, ∀ kernel : Kernel,
        rasterize_clip_space kernel csv attributes triangles image_width
          image_height background_value = .error e) ∧
    ((image_width ≤ 0 ∨ image_height ≤ 0) →
      ∃ e, ∀ kernel : Kernel,
        rasterize kernel world_space_vertices attributes triangles
          camera_matrices image_width image_height background_value =
          .error e) := by
  constructor
  · intro hbad
    by_cases hw : 0 < image_width
    · by_cases hh : 0 < image_height
      · have hrank : csv.shape.length ≠ 3 := by
          rcases hbad with h | h | h
          · omega
          · omega
          · exact h
        refine ⟨"The vertex buffer must be 3D.", fun kernel => ?_⟩
        unfold rasterize_clip_space
        rw [if_neg (not_not_intro hw), if_neg (not_not_intro hh), if_pos hrank]
      · refine ⟨"Image height must be > 0.", fun kernel => ?_⟩
        unfold rasterize_clip_space
        rw [if_neg (not_not_intro hw), if_pos hh]
    · refine ⟨"Image width must be > 0.", fun kernel => ?_⟩
      unfold rasterize_clip_space
      rw [if_pos hw]
  · intro hbad
    by_cases hw : 0 < image_width
    · have hh : ¬ 0 < image_height := by
        rcases hbad with h | h
        · omega
        · omega
      refine ⟨"Image height must be > 0.", fun kernel => ?_⟩
      unfold rasterize rasterize_clip_space
      rw [if_neg (not_not_intro hw), if_pos hh]
    · refine ⟨"Image width must be > 0.", fun kernel => ?_⟩
      unfold rasterize rasterize_clip_space
      rw [if_pos hw]

theorem claim_C4_witness :
    (∃ e, ∀ kernel : Kernel,
      rasterize_clip_space kernel csvW attributesW trianglesW 0 1 [0] =
        .error e) ∧
    (∃ e, ∀ kernel : Kernel,
      rasterize kernel csvW attributesW trianglesW [] 0 1 [0] = .error e) :=
  ⟨(claim_C4 csvW csvW attributesW trianglesW [] 0 1 [0]).1
      (Or.inl (by decide)),
   (claim_C4 csvW csvW attributesW trianglesW [] 0 1 [0]).2
      (Or.inl (by decide))⟩

/-- C9: the z-buffer returned by the per-image kernel has no influence on
`rasterize_clip_space`: two kernels whose triangle-id and barycentric
buffers agree on every input (while their z-buffers may differ
arbitrarily) produce identical attribute images. -/
theorem claim_C9 (k1 k2 : Kernel) (csv : Tensor)
    (attributes : List (List Vec)) (triangles : List Tri)
    (image_width image_height : Int) (background_value : Vec)
    (hagree : ∀ vs : List Vec,
      (k1 vs triangles image_width image_height).triangleIds =
        (k2 vs triangles image_width image_height).triangleIds ∧
      (k1 vs triangles image_width image_height).barycentric =
        (k2 vs triangles image_width image_height).barycentric) :
    rasterize_clip_space k1 csv attributes triangles image_width image_height
      background_value =
      rasterize_clip_space k2 csv attributes triangles image_width image_height
        background_value := by
  have hper : per_image_data k1 csv triangles image_width image_height =
      per_image_data k2 csv triangles image_width image_height := by
    unfold per_image_data
    refine List.map_congr_left fun b _ => ?_
    show ((k1 (csv.image b) triangles image_width image_height).barycentric,
      ((k1 (csv.image b) triangles image_width image_height).triangleIds.map
        fun tid => triangles.getD tid (0, 0, 0)).map fun t =>
          (t.1 + b * csv.shape.getD 1 0, t.2.1 + b * csv.shape.getD 1 0,
           t.2.2 + b * csv.shape.getD 1 0)) =
      ((k2 (csv.image b) triangles image_width image_height).barycentric,
      ((k2 (csv.image b) triangles image_width image_height).triangleIds.map
        fun tid => triangles.getD tid (0, 0, 0)).map fun t =>
          (t.1 + b * csv.shape.getD 1 0, t.2.1 + b * csv.shape.getD 1 0,
           t.2.2 + b * csv.shape.getD 1 0))
    rw [(hagree (csv.image b)).1, (hagree (csv.image b)).2]
  unfold rasterize_clip_space
  rw [hper]

/-- A kernel identical to `kernelW` except for its z-buffer. -/
def kernelWz : Kernel := fun _ _ _ _ => ⟨[0], [(1/2, 1/4, 1/4)], [42]⟩

theorem claim_C9_witness :
    rasterize_clip_space kernelW csvW attributesW trianglesW 1 1 [0] =
      rasterize_clip_space kernelWz csvW attributesW trianglesW 1 1 [0] :=
  claim_C9 kernelW kernelWz csvW attributesW trianglesW 1 1 [0]
    (fun _ => ⟨rfl, rfl⟩)

/-- C10: for a vertex buffer of shape `[0, V, C]` (batch dimension 0) with
positive image dimensions, every documented validation check passes yet
`rasterize_clip_space` returns no attribute image: stacking the empty
per-image list fails. -/
theorem claim_C10 (kernel : Kernel) (csv : Tensor)
    (attributes : List (List Vec)) (triangles : List Tri)
    (image_width image_height : Int) (background_value : Vec)
    (hw : 0 < image_width) (hh : 0 < image_height)
    (hrank : csv.shape.length = 3) (hB : csv.shape.getD 0 0 = 0) :
    rasterize_clip_space kernel csv attributes triangles image_width
      image_height background_value =
      .error "stack expects a non-empty TensorList" := by
  have hempty : per_image_data kernel csv triangles image_width image_height =
      [] := by
    have hlen : (per_image_data kernel csv triangles image_width
        image_height).length = csv.shape.getD 0 0 := per_image_data_length
    rw [hB] at hlen
    exact List.length_eq_zero.mp hlen
  unfold rasterize_clip_space
  rw [if_neg (not_not_intro hw), if_neg (not_not_intro hh),
    if_neg (not_not_intro hrank), hempty]
  rfl

/-- An empty-batch vertex buffer of shape `[0, 1, 4]`. -/
def csvB0 : Tensor := ⟨[0, 1, 4], []⟩

theorem claim_C10_witness :
    rasterize_clip_space kernelW csvB0 attributesW trianglesW 1 1 [0] =
      .error "stack expects a non-empty TensorList" :=
  claim_C10 kernelW csvB0 attributesW trianglesW 1 1 [0] (by decide)
    (by decide) (by decide) (by decide)

/-- C8 (amended): the only calls `rasterize_clip_space` rejects with one of
its validation `ValueError`s are those with a non-positive image dimension
or a non-rank-3 vertex buffer; batch-size consistency between the vertex
buffer and the attribute buffer is never part of that validation (the
right-hand side does not mention the attribute buffer at all). -/
theorem claim_C8_amended (kernel : Kernel) (csv : Tensor)
    (attributes : List (List Vec)) (triangles : List Tri)
    (image_width image_height : Int) (background_value : Vec) :
    (∃ e, rasterize_clip_space kernel csv attributes triangles image_width
        image_height background_value = .error e ∧
      (e = "Image width must be > 0." ∨ e = "Image height must be > 0." ∨
       e = "The vertex buffer must be 3D.")) ↔
    (image_width ≤ 0 ∨ image_height ≤ 0 ∨ csv.shape.length ≠ 3) := by
  constructor
  · rintro ⟨e, he, hmsg⟩
    by_contra hcon
    push_neg at hcon
    obtain ⟨hw, hh, hrank⟩ := hcon
    unfold rasterize_clip_space at he
    rw [if_neg (not_not_intro hw), if_neg (not_not_intro hh),
      if_neg (not_not_intro hrank)] at he
    cases hstack : torchStack
        (per_image_data kernel csv triangles image_width image_height) with
    | error e' =>
      rw [hstack] at he
      simp only [Except.error.injEq] at he
      subst he
      unfold torchStack at hstack
      by_cases hemp : (per_image_data kernel csv triangles image_width
          image_height).isEmpty = true
      · rw [if_pos hemp] at hstack
        simp only [Except.error.injEq] at hstack
        subst hstack
        rcases hmsg with h | h | h <;> exact absurd h (by decide)
      · rw [if_neg hemp] at hstack
        exact Except.noConfusion hstack
    | ok l =>
      rw [hstack] at he
      exact Except.noConfusion he
  · intro hbad
    by_cases hw : 0 < image_width
    · by_cases hh : 0 < image_height
      · have hrank : csv.shape.length ≠ 3 := by
          rcases hbad with h | h | h
          · omega
          · omega
          · exact h
        refine ⟨"The vertex buffer must be 3D.", ?_, Or.inr (Or.inr rfl)⟩
        unfold rasterize_clip_space
        rw [if_neg (not_not_intro hw), if_neg (not_not_intro hh), if_pos hrank]
      · refine ⟨"Image height must be > 0.", ?_, Or.inr (Or.inl rfl)⟩
        unfold rasterize_clip_space
        rw [if_neg (not_not_intro hw), if_pos hh]
    · refine ⟨"Image width must be > 0.", ?_, Or.inl rfl⟩
      unfold rasterize_clip_space
      rw [if_pos hw]

/-- A constant kernel used by the batch-mismatch counterexample. -/
def kernelEx : Kernel := fun _ _ _ _ => ⟨[0], [(1, 0, 0)], [0]⟩

/-- A vertex buffer with batch size 2 (shape `[2, 1, 4]`). -/
def csvEx : Tensor := ⟨[2, 1, 4], [0, 0, 0, 1, 0, 0, 0, 1]⟩

/-- An attribute buffer with batch size 1 (shape `[1, 1, 2]`), mismatching
`csvEx`'s batch size 2. -/
def attributesEx : List (List Vec) := [[[5, 6]]]

/-- A single degenerate triangle. -/
def trianglesEx : List Tri := [(0, 0, 0)]

/-- C8 (counterexample): a call whose vertex buffer has batch size 2 but
whose attribute buffer has batch size 1 is not rejected at all — it runs
to completion and returns an attribute image — refuting the claim that
every mismatched-batch call is rejected before any kernel invocation. -/
theorem claim_C8_counterexample :
    csvEx.shape.getD 0 0 = 2 ∧ attributesEx.length = 1 ∧
    rasterize_clip_space kernelEx csvEx attributesEx trianglesEx 1 1 [0] =
      .ok [[[5]], [[6]]] := by
  refine ⟨rfl, rfl, ?_⟩
  with_unfolding_all rfl

section RowLengths

variable {A : Nat} {kernel : Kernel} {csv : Tensor}
  {attributes : List (List Vec)} {triangles : List Tri}
  {image_width image_height : Int} {background_value : Vec}

theorem attributes_row_length
    (hv : ValidInput A kernel csv attributes triangles image_width image_height
      background_value)
    {b j : Nat} (hb : b < csv.shape.getD 0 0) (hj : j < csv.shape.getD 1 0) :
    ((attributes.getD b []).getD j []).length = A := by
  have hrow : attributes.getD b [] ∈ attributes :=
    getD_mem (by rw [hv.attr_batch]; exact hb) _
  have hel : (attributes.getD b []).getD j [] ∈ attributes.getD b [] :=
    getD_mem (by rw [hv.attr_vertex _ hrow]; exact hj) _
  exact hv.attr_width _ hrow _ hel

theorem interpolated_attributes_row_length
    (hv : ValidInput A kernel csv attributes triangles image_width image_height
      background_value)
    {b p : Nat} (hb : b < csv.shape.getD 0 0)
    (hp : p < image_height.toNat * image_width.toNat) :
    ((interpolated_attributes
      (per_image_data kernel csv triangles image_width image_height) attributes
      (csv.shape.getD 0 0 * csv.shape.getD 1 0)).getD
        (b * (image_height.toNat * image_width.toNat) + p) []).length = A := by
  obtain ⟨h1, h2, h3⟩ := hv.tri_lt _ (triangle_of_pixel_mem hv hb hp)
  rw [interpolated_attributes_getD hv hb hp, vecAdd_length, vecAdd_length,
    vecScale_length, vecScale_length, vecScale_length,
    attributes_row_length hv hb h1, attributes_row_length hv hb h2,
    attributes_row_length hv hb h3]
  simp

end RowLengths

/-- C1: for every pixel `p` of every batch image `b` (under the documented
shape and kernel contract), `rasterize_clip_space`'s gather stage looks the
winning triangle's three vertex indices up in the triangle list via the
pixel's triangle id and offsets them by `b * vertex_count` to index the
globally flattened attribute table, and its interpolation stage produces
the pixel's attribute vector as the sum over the three vertices of the
gathered attribute row scaled by the corresponding barycentric weight. -/
theorem claim_C1 {A : Nat} (kernel : Kernel) (csv : Tensor)
    (attributes : List (List Vec)) (triangles : List Tri)
    (image_width image_height : Int) (background_value : Vec)
    (hv : ValidInput A kernel csv attributes triangles image_width image_height
      background_value)
    (b p : Nat) (hb : b < csv.shape.getD 0 0)
    (hp : p < image_height.toNat * image_width.toNat) :
    (all_vertex_ids
      (per_image_data kernel csv triangles image_width image_height)).getD
        (b * (image_height.toNat * image_width.toNat) + p) (0, 0, 0) =
      ((triangles.getD
          ((kernel (csv.image b) triangles image_width image_height).triangleIds.getD
            p 0) (0, 0, 0)).1 + b * csv.shape.getD 1 0,
       (triangles.getD
          ((kernel (csv.image b) triangles image_width image_height).triangleIds.getD
            p 0) (0, 0, 0)).2.1 + b * csv.shape.getD 1 0,
       (triangles.getD
          ((kernel (csv.image b) triangles image_width image_height).triangleIds.getD
            p 0) (0, 0, 0)).2.2 + b * csv.shape.getD 1 0) ∧
    (interpolated_attributes
      (per_image_data kernel csv triangles image_width image_height) attributes
      (csv.shape.getD 0 0 * csv.shape.getD 1 0)).getD
        (b * (image_height.toNat * image_width.toNat) + p) [] =
      vecAdd (vecAdd
        (vecScale
          ((kernel (csv.image b) triangles image_width image_height).barycentric.getD
            p (0, 0, 0)).1
          ((attributes.getD b []).getD
            (triangles.getD
              ((kernel (csv.image b) triangles image_width
                image_height).triangleIds.getD p 0) (0, 0, 0)).1 []))
        (vecScale
          ((kernel (csv.image b) triangles image_width image_height).barycentric.getD
            p (0, 0, 0)).2.1
          ((attributes.getD b []).getD
            (triangles.getD
              ((kernel (csv.image b) triangles image_width
                image_height).triangleIds.getD p 0) (0, 0, 0)).2.1 [])))
        (vecScale
          ((kernel (csv.image b) triangles image_width image_height).barycentric.getD
            p (0, 0, 0)).2.2
          ((attributes.getD b []).getD
            (triangles.getD
              ((kernel (csv.image b) triangles image_width
                image_height).triangleIds.getD p 0) (0, 0, 0)).2.2 [])) :=
  ⟨all_vertex_ids_getD hv hb hp, interpolated_attributes_getD hv hb hp⟩

theorem claim_C1_witness :
    (all_vertex_ids (per_image_data kernelW csvW trianglesW 1 1)).getD 0
        (0, 0, 0) = (0, 1, 2) ∧
    (interpolated_attributes (per_image_data kernelW csvW trianglesW 1 1)
      attributesW 3).getD 0 [] = [35 / 2] := by
  have h := claim_C1 kernelW csvW attributesW trianglesW 1 1 [0] hvW 0 0
    (by decide) (by decide)
  with_unfolding_all exact h

/-- C2: for every pixel (under the documented shape and kernel contract),
the alpha scalar computed by `rasterize_clip_space` equals
`clamp(2 * sum(barycentric weights), 0, 1)`; it is exactly 0 when all
three weights are exactly 0, and exactly 1 whenever their sum is at least
one half. -/
theorem claim_C2 {A : Nat} (kernel : Kernel) (csv : Tensor)
    (attributes : List (List Vec)) (triangles : List Tri)
    (image_width image_height : Int) (background_value : Vec)
    (hv : ValidInput A kernel csv attributes triangles image_width image_height
      background_value)
    (b p : Nat) (hb : b < csv.shape.getD 0 0)
    (hp : p < image_height.toNat * image_width.toNat) :
    (alphas (all_barycentric
      (per_image_data kernel csv triangles image_width image_height))).getD
        (b * (image_height.toNat * image_width.toNat) + p) 0 =
      torchClamp (2 *
        (((kernel (csv.image b) triangles image_width image_height).barycentric.getD
            p (0, 0, 0)).1 +
         ((kernel (csv.image b) triangles image_width image_height).barycentric.getD
            p (0, 0, 0)).2.1 +
         ((kernel (csv.image b) triangles image_width image_height).barycentric.getD
            p (0, 0, 0)).2.2)) 0 1 ∧
    ((kernel (csv.image b) triangles image_width image_height).barycentric.getD
        p (0, 0, 0) = (0, 0, 0) →
      (alphas (all_barycentric
        (per_image_data kernel csv triangles image_width image_height))).getD
          (b * (image_height.toNat * image_width.toNat) + p) 0 = 0) ∧
    (1 / 2 ≤
        ((kernel (csv.image b) triangles image_width image_height).barycentric.getD
          p (0, 0, 0)).1 +
        ((kernel (csv.image b) triangles image_width image_height).barycentric.getD
          p (0, 0, 0)).2.1 +
        ((kernel (csv.image b) triangles image_width image_height).barycentric.getD
          p (0, 0, 0)).2.2 →
      (alphas (all_barycentric
        (per_image_data kernel csv triangles image_width image_height))).getD
          (b * (image_height.toNat * image_width.toNat) + p) 0 = 1) := by
  have halpha : (alphas (all_barycentric
      (per_image_data kernel csv triangles image_width image_height))).getD
        (b * (image_height.toNat * image_width.toNat) + p) 0 =
      pixel_alpha
        ((kernel (csv.image b) triangles image_width image_height).barycentric.getD
          p (0, 0, 0)) := by
    unfold alphas
    rw [getD_map_lt pixel_alpha
      (by rw [all_barycentric_length hv]; exact mul_index_lt hb hp) _ (0, 0, 0),
      all_barycentric_getD hv hb hp]
  refine ⟨?_, ?_, ?_⟩
  · rw [halpha]
    unfold pixel_alpha
    have harg :
        2 * ((kernel (csv.image b) triangles image_width
            image_height).barycentric.getD p (0, 0, 0)).1 +
          2 * ((kernel (csv.image b) triangles image_width
            image_height).barycentric.getD p (0, 0, 0)).2.1 +
          2 * ((kernel (csv.image b) triangles image_width
            image_height).barycentric.getD p (0, 0, 0)).2.2 =
        2 * (((kernel (csv.image b) triangles image_width
            image_height).barycentric.getD p (0, 0, 0)).1 +
          ((kernel (csv.image b) triangles image_width
            image_height).barycentric.getD p (0, 0, 0)).2.1 +
          ((kernel (csv.image b) triangles image_width
            image_height).barycentric.getD p (0, 0, 0)).2.2) := by ring
    rw [harg]
  · intro h0
    rw [halpha, h0]
    unfold pixel_alpha torchClamp
    norm_num
  · intro hhalf
    rw [halpha]
    unfold pixel_alpha torchClamp
    rw [max_eq_left (by linarith), min_eq_right (by linarith)]

theorem claim_C2_witness :
    (alphas (all_barycentric (per_image_data kernelW csvW trianglesW 1 1))).getD
        0 0 = 1 ∧
    ((kernelW (csvW.image 0) trianglesW 1 1).barycentric.getD 0 (0, 0, 0) =
        (0, 0, 0) →
      (alphas (all_barycentric
        (per_image_data kernelW csvW trianglesW 1 1))).getD 0 0 = 0) ∧
    (1 / 2 ≤
        ((kernelW (csvW.image 0) trianglesW 1 1).barycentric.getD 0 (0, 0, 0)).1 +
        ((kernelW (csvW.image 0) trianglesW 1 1).barycentric.getD 0 (0, 0, 0)).2.1 +
        ((kernelW (csvW.image 0) trianglesW 1 1).barycentric.getD 0 (0, 0, 0)).2.2 →
      (alphas (all_barycentric
        (per_image_data kernelW csvW trianglesW 1 1))).getD 0 0 = 1) := by
  have h := claim_C2 kernelW csvW attributesW trianglesW 1 1 [0] hvW 0 0
    (by decide) (by decide)
  with_unfolding_all exact h

/-- C3: for every pixel (under the documented shape and kernel contract),
the final output of `rasterize_clip_space` is
`alpha * interpolated_attribute + (1 - alpha) * background_value`;
consequently, a pixel whose three barycentric weights are exactly zero
(given a non-empty triangle list) equals the background value exactly. -/
theorem claim_C3 {A : Nat} (kernel : Kernel) (csv : Tensor)
    (attributes : List (List Vec)) (triangles : List Tri)
    (image_width image_height : Int) (background_value : Vec)
    (hv : ValidInput A kernel csv attributes triangles image_width image_height
      background_value)
    (b p : Nat) (hb : b < csv.shape.getD 0 0)
    (hp : p < image_height.toNat * image_width.toNat) :
    ∃ out, rasterize_clip_space kernel csv attributes triangles image_width
        image_height background_value = .ok out ∧
      (out.getD b []).getD p [] =
        blend
          (pixel_alpha
            ((kernel (csv.image b) triangles image_width
              image_height).barycentric.getD p (0, 0, 0)))
          ((interpolated_attributes
            (per_image_data kernel csv triangles image_width image_height)
            attributes (csv.shape.getD 0 0 * csv.shape.getD 1 0)).getD
              (b * (image_height.toNat * image_width.toNat) + p) [])
          background_value ∧
      (triangles ≠ [] →
        (kernel (csv.image b) triangles image_width
          image_height).barycentric.getD p (0, 0, 0) = (0, 0, 0) →
        (out.getD b []).getD p [] = background_value) := by
  refine ⟨_, rasterize_clip_space_ok hv.width_pos hv.height_pos hv.rank3
    hv.batch_pos, ?_, ?_⟩
  · rw [getD_range_map _ hb _, getD_range_map _ hp _]
    exact blended_attributes_getD hv hb hp
  · intro _ h0
    rw [getD_range_map _ hb _, getD_range_map _ hp _,
      blended_attributes_getD hv hb hp, h0]
    have ha : pixel_alpha (0, 0, 0) = 0 := by
      unfold pixel_alpha torchClamp
      norm_num
    rw [ha]
    apply blend_zero
    rw [interpolated_attributes_row_length hv hb hp, hv.bg_width]

theorem claim_C3_witness :
    ∃ out, rasterize_clip_space kernelW0 csvW attributesW trianglesW 1 1 [0] =
        .ok out ∧
      (out.getD 0 []).getD 0 [] =
        blend
          (pixel_alpha
            ((kernelW0 (csvW.image 0) trianglesW 1 1).barycentric.getD 0
              (0, 0, 0)))
          ((interpolated_attributes (per_image_data kernelW0 csvW trianglesW 1 1)
            attributesW 3).getD 0 []) [0] ∧
      (trianglesW ≠ [] →
        (kernelW0 (csvW.image 0) trianglesW 1 1).barycentric.getD 0 (0, 0, 0) =
          (0, 0, 0) →
        (out.getD 0 []).getD 0 [] = [0]) := by
  have h := claim_C3 kernelW0 csvW attributesW trianglesW 1 1 [0] hvW0 0 0
    (by decide) (by decide)
  with_unfolding_all exact h

/-- C5: batch images are computed independently (two-run noninterference):
for two well-formed runs that agree on the `b`-th vertex image, the `b`-th
attribute row block, the shared triangle list, the image dimensions and
the background value — while every other batch element may differ — the
`b`-th output images coincide. -/
theorem claim_C5 {A : Nat} (kernel : Kernel) (csv csv' : Tensor)
    (attributes attributes' : List (List Vec)) (triangles : List Tri)
    (image_width image_height : Int) (background_value : Vec)
    (hv : ValidInput A kernel csv attributes triangles image_width image_height
      background_value)
    (hv' : ValidInput A kernel csv' attributes' triangles image_width
      image_height background_value)
    (hshape : csv'.shape = csv.shape) (b : Nat) (hb : b < csv.shape.getD 0 0)
    (himg : csv'.image b = csv.image b)
    (hattr : attributes'.getD b [] = attributes.getD b [])
    (out out' : List (List Vec))
    (hout : rasterize_clip_space kernel csv attributes triangles image_width
      image_height background_value = .ok out)
    (hout' : rasterize_clip_space kernel csv' attributes' triangles image_width
      image_height background_value = .ok out') :
    out'.getD b [] = out.getD b [] := by
  rw [rasterize_clip_space_ok hv.width_pos hv.height_pos hv.rank3
    hv.batch_pos] at hout
  rw [rasterize_clip_space_ok hv'.width_pos hv'.height_pos hv'.rank3
    hv'.batch_pos] at hout'
  obtain rfl := (Except.ok.inj hout).symm
  obtain rfl := (Except.ok.inj hout').symm
  have hb' : b < csv'.shape.getD 0 0 := by rw [hshape]; exact hb
  rw [getD_range_map _ hb' _, getD_range_map _ hb _]
  refine List.map_congr_left fun p hp => ?_
  rw [List.mem_range] at hp
  rw [blended_attributes_getD hv hb hp, blended_attributes_getD hv' hb' hp]
  rw [interpolated_attributes_getD hv hb hp,
    interpolated_attributes_getD hv' hb' hp]
  rw [himg, hattr]

/-- Two-image vertex buffer for the noninterference witness. -/
def csvW5 : Tensor := ⟨[2, 1, 4], [0, 0, 0, 1, 0, 0, 0, 1]⟩

/-- Same shape as `csvW5`, equal image 0, different image 1. -/
def csvW5' : Tensor := ⟨[2, 1, 4], [0, 0, 0, 1, 2, 3, 4, 5]⟩

/-- Attributes for the noninterference witness (batch 2). -/
def attributesW5 : List (List Vec) := [[[7]], [[8]]]

/-- Same batch-0 attribute row as `attributesW5`, different batch 1. -/
def attributesW5' : List (List Vec) := [[[7]], [[9]]]

/-- Triangle list for the noninterference witness. -/
def trianglesW5 : List Tri := [(0, 0, 0)]

theorem hvW5 : ValidInput 1 kernelW csvW5 attributesW5 trianglesW5 1 1 [0] := by
  constructor <;> decide

theorem hvW5' : ValidInput 1 kernelW csvW5' attributesW5' trianglesW5 1 1 [0] := by
  constructor <;> decide

theorem claim_C5_witness :
    ([[[7]], [[9]]] : List (List Vec)).getD 0 [] =
      ([[[7]], [[8]]] : List (List Vec)).getD 0 [] := by
  have h := claim_C5 kernelW csvW5 csvW5' attributesW5 attributesW5' trianglesW5
    1 1 [0] hvW5 hvW5' rfl 0 (by decide) rfl rfl [[[7]], [[8]]] [[[7]], [[9]]]
    (by with_unfolding_all rfl) (by with_unfolding_all rfl)
  with_unfolding_all exact h
